import Mathlib

/-!
Shallow embedding of the AI-credit and subscription-usage accounting core of
the dropshapes backend (`app/services/ai_credits_service.py`,
`app/services/subscription_service.py`, and the user-state effects of the
`cancel` endpoint in `app/api/endpoints/subscriptions.py`).

The database session is replaced by explicit state passing on a `User` value
that carries the fields the core reads and writes: `ai_credits` (bonus
credits), `subscription_tokens_used` (nullable in the schema, hence
`Option Int`), `has_used_free_limits`, the user's subscription rows, and the
creation timestamps of the user's resumes and cover letters (timestamps are
modelled as integers).  Python `raise` is modelled with `Except`, the error
value carrying both the data used to build the error message and the user
state at the moment of the raise.
-/

namespace Dropshapes

/-- One row of the `subscriptions` table, restricted to the fields the
accounting core reads (`is_active`, the three limits, `interval`, the billing
period bounds and `created_at`). `resume_limit = -1` means unlimited. -/
structure Subscription where
  is_active : Bool
  resume_limit : Int
  cover_letter_limit : Int
  ai_credits_limit : Int
  interval : String
  current_period_start : Option Int
  current_period_end : Option Int
  created_at : Int
deriving Repr, DecidableEq

/-- The fields of the `users` row the accounting core reads and writes,
together with the user's subscription rows and the `created_at` timestamps of
their resumes and cover letters (the core only ever counts these). -/
structure User where
  ai_credits : Int
  subscription_tokens_used : Option Int
  has_used_free_limits : Bool
  subscriptions : List Subscription
  resume_created_ats : List Int
  cover_letter_created_ats : List Int
deriving Repr, DecidableEq

/-- The sort key of `SubscriptionService.get_user_subscription`:
`(x.ai_credits_limit or 0, x.created_at)`.  On integers the Python `or 0`
is the identity (it only maps the falsy values `None` and `0` to `0`). -/
def subscription_key (s : Subscription) : Int × Int :=
  (s.ai_credits_limit, s.created_at)

/-- Strict lexicographic order on sort keys, as Python compares tuples. -/
def key_lt (a b : Int × Int) : Prop :=
  a.1 < b.1 ∨ (a.1 = b.1 ∧ a.2 < b.2)

instance (a b : Int × Int) : Decidable (key_lt a b) := by
  unfold key_lt; infer_instance

/-- One step of Python's `max(list, key=...)` scan: replace the current
maximum only when a strictly greater key is found. -/
def pick_step (best x : Subscription) : Subscription :=
  if key_lt (subscription_key best) (subscription_key x) then x else best

/-- Python's `max(list, key=...)`: scan the list keeping the current maximum,
replacing it only when a strictly greater key is found (so among equal keys
the first element wins, and ties in `ai_credits_limit` are broken by the
larger `created_at`). -/
def pick_max_by_key : List Subscription → Option Subscription
  | [] => none
  | s :: rest => some (rest.foldl pick_step s)

/-- `SubscriptionService.get_user_subscription`: among the user's active
subscription rows, the one maximal for `(ai_credits_limit, created_at)`;
`none` when the user has no active subscription. -/
def get_user_subscription (u : User) : Option Subscription :=
  pick_max_by_key (u.subscriptions.filter (fun s => s.is_active))

/-- Return value of `SubscriptionService.get_subscription_limits`;
`none` encodes the Python `None` ("unlimited"). -/
structure SubscriptionLimits where
  resume_limit : Option Int
  cover_letter_limit : Option Int
  ai_credits_limit : Int
deriving Repr, DecidableEq

/-- `SubscriptionService.get_subscription_limits`: the active subscription's
limits verbatim with `-1` mapped to `none`; with no active subscription,
all-zero limits when `has_used_free_limits` is set, else the free-tier
defaults `(20, 20, 0)`. -/
def get_subscription_limits (u : User) : SubscriptionLimits :=
  match get_user_subscription u with
  | none =>
      if u.has_used_free_limits then
        { resume_limit := some 0, cover_letter_limit := some 0, ai_credits_limit := 0 }
      else
        { resume_limit := some 20, cover_letter_limit := some 20, ai_credits_limit := 0 }
  | some s =>
      { resume_limit := if s.resume_limit = -1 then none else some s.resume_limit
        cover_letter_limit := if s.cover_letter_limit = -1 then none else some s.cover_letter_limit
        ai_credits_limit := s.ai_credits_limit }

/-- Return value of `SubscriptionService.get_current_usage` /
`get_total_usage`. -/
structure UsageCounts where
  resume_count : Nat
  cover_letter_count : Nat
deriving Repr, DecidableEq

/-- `SubscriptionService.get_current_usage`: counts scoped to
`created_at >= current_period_start` when an active subscription with a
period start exists, all-time counts otherwise. -/
def get_current_usage (u : User) : UsageCounts :=
  match get_user_subscription u with
  | some s =>
      match s.current_period_start with
      | some t =>
          { resume_count := (u.resume_created_ats.filter (fun c => t ≤ c)).length
            cover_letter_count := (u.cover_letter_created_ats.filter (fun c => t ≤ c)).length }
      | none =>
          { resume_count := u.resume_created_ats.length
            cover_letter_count := u.cover_letter_created_ats.length }
  | none =>
      { resume_count := u.resume_created_ats.length
        cover_letter_count := u.cover_letter_created_ats.length }

/-- `SubscriptionService.get_total_usage`: all-time counts. -/
def get_total_usage (u : User) : UsageCounts :=
  { resume_count := u.resume_created_ats.length
    cover_letter_count := u.cover_letter_created_ats.length }

/-- The data interpolated into the HTTP 402 message of
`AICreditService.check_and_deduct_credits`. -/
structure InsufficientCredits where
  credits_required : Int
  total_available : Int
  bonus_credits : Int
  subscription_remaining : Int
deriving Repr, DecidableEq

/-- `AICreditService.check_and_deduct_credits`.  On the insufficient branch
the Python raises before any mutation; the `Except.error` value carries the
user state at the raise.  Otherwise bonus credits are consumed first
(only when `ai_credits > 0`), then any remainder is added to
`subscription_tokens_used` (only when the remainder is positive). -/
def check_and_deduct_credits (u : User) (credits_required : Int) :
    Except (InsufficientCredits × User) User :=
  let limits := get_subscription_limits u
  let ai_credits_limit := limits.ai_credits_limit
  let subscription_tokens_used := u.subscription_tokens_used.getD 0
  let subscription_tokens_remaining := max 0 (ai_credits_limit - subscription_tokens_used)
  let total_available := u.ai_credits + subscription_tokens_remaining
  if total_available < credits_required then
    .error ({ credits_required := credits_required
              total_available := total_available
              bonus_credits := u.ai_credits
              subscription_remaining := subscription_tokens_remaining }, u)
  else
    let step1 : User × Int :=
      if 0 < u.ai_credits then
        let bonus_to_deduct := min u.ai_credits credits_required
        ({ u with ai_credits := u.ai_credits - bonus_to_deduct },
         credits_required - bonus_to_deduct)
      else
        (u, credits_required)
    if 0 < step1.2 then
      .ok { step1.1 with
              subscription_tokens_used :=
                some (step1.1.subscription_tokens_used.getD 0 + step1.2) }
    else
      .ok step1.1

/-- `AICreditService.add_credits`: unconditionally add to `ai_credits` and
return the new balance. -/
def add_credits (u : User) (credits_to_add : Int) : User × Int :=
  let u1 := { u with ai_credits := u.ai_credits + credits_to_add }
  (u1, u1.ai_credits)

/-- `SubscriptionService.check_and_mark_free_limits_used`: flip
`has_used_free_limits` when it is not yet set, the user has no active
subscription, and they have ever created a resume or a cover letter. -/
def check_and_mark_free_limits_used (u : User) : User :=
  if u.has_used_free_limits then u
  else
    match get_user_subscription u with
    | some _ => u
    | none =>
        let usage := get_total_usage u
        if 0 < usage.resume_count ∨ 0 < usage.cover_letter_count then
          { u with has_used_free_limits := true }
        else u

/-- `SubscriptionService.mark_free_limits_as_used_on_subscription`: flip
`has_used_free_limits` when the user has ever created any resource. -/
def mark_free_limits_as_used_on_subscription (u : User) : User :=
  let usage := get_total_usage u
  if 0 < usage.resume_count ∨ 0 < usage.cover_letter_count then
    { u with has_used_free_limits := true }
  else u

/-- `SubscriptionService.check_resume_limit`: allow when the resume limit is
unlimited, or usage is below it, or there are bonus credits, or (guarded by
`ai_credits_limit > 0`) subscription tokens remain. -/
def check_resume_limit (u : User) : Bool :=
  let limits := get_subscription_limits u
  let usage := get_current_usage u
  match limits.resume_limit with
  | none => true
  | some resume_limit =>
      if (usage.resume_count : Int) < resume_limit then true
      else if 0 < u.ai_credits then true
      else
        let ai_credits_limit := limits.ai_credits_limit
        let subscription_tokens_used := u.subscription_tokens_used.getD 0
        let subscription_tokens_remaining :=
          if 0 < ai_credits_limit then max 0 (ai_credits_limit - subscription_tokens_used)
          else 0
        decide (0 < subscription_tokens_remaining)

/-- `SubscriptionService.check_cover_letter_limit`, the mirror of
`check_resume_limit` for cover letters. -/
def check_cover_letter_limit (u : User) : Bool :=
  let limits := get_subscription_limits u
  let usage := get_current_usage u
  match limits.cover_letter_limit with
  | none => true
  | some cover_letter_limit =>
      if (usage.cover_letter_count : Int) < cover_letter_limit then true
      else if 0 < u.ai_credits then true
      else
        let ai_credits_limit := limits.ai_credits_limit
        let subscription_tokens_used := u.subscription_tokens_used.getD 0
        let subscription_tokens_remaining :=
          if 0 < ai_credits_limit then max 0 (ai_credits_limit - subscription_tokens_used)
          else 0
        decide (0 < subscription_tokens_remaining)

/-- The data interpolated into the `SubscriptionLimitError` message of
`validate_resume_creation` / `validate_cover_letter_creation`. -/
structure LimitDenial where
  limit : Option Int
  current_count : Nat
  bonus_credits : Int
  subscription_remaining : Int
deriving Repr, DecidableEq

/-- `SubscriptionService.validate_resume_creation`: run the free-limit
marking side effect first, then either pass the gate or raise a denial built
from the post-marking state. -/
def validate_resume_creation (u : User) : Except (LimitDenial × User) User :=
  let u1 := check_and_mark_free_limits_used u
  if check_resume_limit u1 then .ok u1
  else
    let limits := get_subscription_limits u1
    let usage := get_current_usage u1
    let ai_credits_limit := limits.ai_credits_limit
    let subscription_tokens_used := u1.subscription_tokens_used.getD 0
    let subscription_tokens_remaining :=
      if 0 < ai_credits_limit then max 0 (ai_credits_limit - subscription_tokens_used)
      else 0
    .error ({ limit := limits.resume_limit
              current_count := usage.resume_count
              bonus_credits := u1.ai_credits
              subscription_remaining := subscription_tokens_remaining }, u1)

/-- `SubscriptionService.validate_cover_letter_creation`, mirror of
`validate_resume_creation`. -/
def validate_cover_letter_creation (u : User) : Except (LimitDenial × User) User :=
  let u1 := check_and_mark_free_limits_used u
  if check_cover_letter_limit u1 then .ok u1
  else
    let limits := get_subscription_limits u1
    let usage := get_current_usage u1
    let ai_credits_limit := limits.ai_credits_limit
    let subscription_tokens_used := u1.subscription_tokens_used.getD 0
    let subscription_tokens_remaining :=
      if 0 < ai_credits_limit then max 0 (ai_credits_limit - subscription_tokens_used)
      else 0
    .error ({ limit := limits.cover_letter_limit
              current_count := usage.cover_letter_count
              bonus_credits := u1.ai_credits
              subscription_remaining := subscription_tokens_remaining }, u1)

/-- `SubscriptionService.reset_subscription_credits`: set
`subscription_tokens_used` to 0. -/
def reset_subscription_credits (u : User) : User :=
  { u with subscription_tokens_used := some 0 }

/-- `SubscriptionService.handle_subscription_renewal_or_upgrade`: default the
billing period to `[now, now + 30 or 365 days]` when absent, reset the token
counter, and run the free-limit marking step. -/
def handle_subscription_renewal_or_upgrade (now : Int) (u : User)
    (new_subscription : Subscription) : User × Subscription :=
  let s1 :=
    match new_subscription.current_period_start with
    | none =>
        let period_end := now + (if new_subscription.interval = "monthly" then 30 else 365)
        { new_subscription with
            current_period_start := some now
            current_period_end := some period_end }
    | some _ => new_subscription
  let u1 := reset_subscription_credits u
  let u2 := mark_free_limits_as_used_on_subscription u1
  (u2, s1)

/-- Deactivate the first active row of a subscription list, as the cancel
endpoint's `filter(is_active).first()` + `is_active = False` do. -/
def deactivate_first_active : List Subscription → List Subscription
  | [] => []
  | s :: rest =>
      if s.is_active then { s with is_active := false } :: rest
      else s :: deactivate_first_active rest

/-- The user/subscription state effects of the `POST /subscriptions/cancel`
endpoint (`cancel_subscription` in `app/api/endpoints/subscriptions.py`):
404 (`none`) without an active subscription; otherwise deactivate it, set
`subscription_tokens_used = 0`, and set `has_used_free_limits` when the user
has ever created any resource. -/
def cancel_subscription (u : User) : Option User :=
  match u.subscriptions.find? (fun s => s.is_active) with
  | none => none
  | some _ =>
      let u1 := { u with
                    subscriptions := deactivate_first_active u.subscriptions
                    subscription_tokens_used := some 0 }
      let usage := get_total_usage u1
      if 0 < usage.resume_count ∨ 0 < usage.cover_letter_count then
        some { u1 with has_used_free_limits := true }
      else
        some u1

/-- Following the wording of the limit-gate claim (refinement side): creation
is allowed iff the effective limit is unlimited (`none`), or the
period-scoped count is strictly below the limit, or `bonus_credits > 0`, or
`max(0, ai_credits_limit - subscription_tokens_used) > 0`. -/
def spec_gate_allows (limit : Option Int) (count : Nat) (bonus L tu : Int) : Prop :=
  limit = none ∨ (∃ m, limit = some m ∧ (count : Int) < m) ∨
    0 < bonus ∨ 0 < max 0 (L - tu)

/- Concrete fixtures used by the witness theorems. -/

/-- An active monthly subscription row with a 5-credit AI allotment. -/
def sub5 : Subscription :=
  { is_active := true, resume_limit := -1, cover_letter_limit := -1,
    ai_credits_limit := 5, interval := "monthly",
    current_period_start := some 0, current_period_end := some 30, created_at := 0 }

/-- P2 user: 3 bonus credits, 5 subscription credits remaining. -/
def userP2 : User :=
  { ai_credits := 3, subscription_tokens_used := some 0, has_used_free_limits := false,
    subscriptions := [sub5], resume_created_ats := [], cover_letter_created_ats := [] }

/-- Scenario-B user: no bonus credits, 100-credit allotment fully used. -/
def userScB : User :=
  { ai_credits := 0, subscription_tokens_used := some 100, has_used_free_limits := false,
    subscriptions := [{ sub5 with ai_credits_limit := 100 }],
    resume_created_ats := [], cover_letter_created_ats := [] }

/-- Free user with 10 bonus credits and no subscription. -/
def userFree10 : User :=
  { ai_credits := 10, subscription_tokens_used := some 0, has_used_free_limits := false,
    subscriptions := [], resume_created_ats := [], cover_letter_created_ats := [] }

/-- Subscribed user with 5 tokens consumed, for the cancellation example. -/
def userTok5 : User :=
  { ai_credits := 0, subscription_tokens_used := some 5, has_used_free_limits := false,
    subscriptions := [{ sub5 with ai_credits_limit := 100 }],
    resume_created_ats := [], cover_letter_created_ats := [] }

/-- A low-allotment active row (1 AI credit, created later). -/
def subLow : Subscription :=
  { sub5 with resume_limit := 2, cover_letter_limit := 2, ai_credits_limit := 1,
              created_at := 9 }

/-- A high-allotment active row (7 AI credits, created earlier). -/
def subHigh : Subscription :=
  { sub5 with resume_limit := 3, cover_letter_limit := 4, ai_credits_limit := 7,
              created_at := 1 }

/-- User with two active subscription rows, for the tie-break example. -/
def userTwoSubs : User :=
  { ai_credits := 0, subscription_tokens_used := some 0, has_used_free_limits := false,
    subscriptions := [subLow, subHigh],
    resume_created_ats := [], cover_letter_created_ats := [] }

/-- Scenario-D user: period starts at 10; 5 resumes before, 2 after. -/
def userScD : User :=
  { ai_credits := 0, subscription_tokens_used := some 0, has_used_free_limits := false,
    subscriptions := [{ sub5 with current_period_start := some 10 }],
    resume_created_ats := [1, 2, 3, 4, 5, 11, 12], cover_letter_created_ats := [] }

/-- P5 user: plan caps both resources at 1, both caps reached, zero
subscription allotment, one bonus credit left. -/
def userAtCap : User :=
  { ai_credits := 1, subscription_tokens_used := some 0, has_used_free_limits := false,
    subscriptions :=
      [{ sub5 with resume_limit := 1, cover_letter_limit := 1, ai_credits_limit := 0 }],
    resume_created_ats := [11], cover_letter_created_ats := [12] }

/-- `userAtCap` with the last bonus credit spent: the gate must deny. -/
def userAtCapNoBonus : User :=
  { ai_credits := 0, subscription_tokens_used := some 0, has_used_free_limits := false,
    subscriptions :=
      [{ sub5 with resume_limit := 1, cover_letter_limit := 1, ai_credits_limit := 0 }],
    resume_created_ats := [11], cover_letter_created_ats := [12] }

/-- P4 user: no subscription, one resume already created, flag not yet set. -/
def userFreeUsed : User :=
  { ai_credits := 0, subscription_tokens_used := some 0, has_used_free_limits := false,
    subscriptions := [], resume_created_ats := [3], cover_letter_created_ats := [] }

/-- The state `cancel_subscription` produces from `userTok5`. -/
def userTok5Cancelled : User :=
  { ai_credits := 0, subscription_tokens_used := some 0, has_used_free_limits := false,
    subscriptions := [{ sub5 with ai_credits_limit := 100, is_active := false }],
    resume_created_ats := [], cover_letter_created_ats := [] }

/-- The state `check_and_deduct_credits userP2 5` produces. -/
def userP2After : User :=
  { ai_credits := 0, subscription_tokens_used := some 2, has_used_free_limits := false,
    subscriptions := [sub5], resume_created_ats := [], cover_letter_created_ats := [] }

/-! ## Helper lemmas -/

/-- Branch-level characterization of `check_and_deduct_credits`: the
insufficiency test, then the bonus-first deduction, then the
remainder-to-subscription step. -/
lemma check_and_deduct_credits_eq (u : User) (c : Int) :
    check_and_deduct_credits u c =
      (if u.ai_credits + max 0 ((get_subscription_limits u).ai_credits_limit -
            u.subscription_tokens_used.getD 0) < c then
         .error ({ credits_required := c,
                   total_available := u.ai_credits +
                     max 0 ((get_subscription_limits u).ai_credits_limit -
                       u.subscription_tokens_used.getD 0),
                   bonus_credits := u.ai_credits,
                   subscription_remaining :=
                     max 0 ((get_subscription_limits u).ai_credits_limit -
                       u.subscription_tokens_used.getD 0) }, u)
       else if 0 < u.ai_credits then
         (if 0 < c - min u.ai_credits c then
            .ok { u with ai_credits := u.ai_credits - min u.ai_credits c,
                         subscription_tokens_used :=
                           some (u.subscription_tokens_used.getD 0 +
                             (c - min u.ai_credits c)) }
          else .ok { u with ai_credits := u.ai_credits - min u.ai_credits c })
       else
         (if 0 < c then
            .ok { u with subscription_tokens_used :=
                           some (u.subscription_tokens_used.getD 0 + c) }
          else .ok u)) := by
  simp only [check_and_deduct_credits]
  by_cases h1 : u.ai_credits + max 0 ((get_subscription_limits u).ai_credits_limit -
      u.subscription_tokens_used.getD 0) < c
  · simp [h1]
  · by_cases h2 : 0 < u.ai_credits
    · simp [h1, h2]
    · simp [h1, h2]

/-! ## Claims -/

/-- Claim C9: `check_and_deduct_credits` does not validate
`credits_required`: for every user state satisfying the documented
`bonus_credits ≥ 0` invariant and every `c ≤ 0` the call succeeds, a call
with `c = 0` leaves the state unchanged, and a call with `c < 0` on a user
with positive bonus credits increases `ai_credits` by `|c|` while leaving
`subscription_tokens_used` unchanged. -/
theorem C9_no_requirement_validation (u : User) (c : Int)
    (hb : 0 ≤ u.ai_credits) (hc : c ≤ 0) :
    (∃ u', check_and_deduct_credits u c = .ok u') ∧
    (c = 0 → check_and_deduct_credits u c = .ok u) ∧
    (c < 0 → 0 < u.ai_credits →
      check_and_deduct_credits u c = .ok { u with ai_credits := u.ai_credits - c } ∧
      ({ u with ai_credits := u.ai_credits - c } : User).subscription_tokens_used =
        u.subscription_tokens_used) := by
  have hrem : 0 ≤ max 0 ((get_subscription_limits u).ai_credits_limit -
      u.subscription_tokens_used.getD 0) := le_max_left _ _
  rw [check_and_deduct_credits_eq]
  rw [if_neg (by omega)]
  refine ⟨?_, ?_, ?_⟩
  · by_cases h2 : 0 < u.ai_credits
    · rw [if_pos h2]
      by_cases h3 : 0 < c - min u.ai_credits c
      · exact ⟨_, by rw [if_pos h3]⟩
      · exact ⟨_, by rw [if_neg h3]⟩
    · rw [if_neg h2, if_neg (by omega)]
      exact ⟨u, rfl⟩
  · intro hc0
    subst hc0
    by_cases h2 : 0 < u.ai_credits
    · rw [if_pos h2, if_neg (by omega)]
      have hmin : min u.ai_credits (0 : Int) = 0 := by omega
      rw [hmin, sub_zero]
    · rw [if_neg h2, if_neg (by omega)]
  · intro hneg hpos
    rw [if_pos hpos, if_neg (by omega)]
    have hmin : min u.ai_credits c = c := by omega
    rw [hmin]
    exact ⟨rfl, rfl⟩

/-- Witness for C9 at a free user with 10 bonus credits and `c = -3`:
the call succeeds and leaves 13 bonus credits. -/
theorem C9_no_requirement_validation_witness :
    check_and_deduct_credits userFree10 (-3) =
      .ok { userFree10 with ai_credits := userFree10.ai_credits - (-3) } :=
  ((C9_no_requirement_validation userFree10 (-3) (by decide)
      (by decide)).2.2 (by decide) (by decide)).1

/-- Claim C10: `add_credits` performs no validation of its argument: for
every integer `credits_to_add`, it sets `ai_credits` to `old + credits_to_add`
and returns exactly that sum, never touches `subscription_tokens_used` or
`has_used_free_limits`, and a sufficiently negative argument drives
`ai_credits` below 0. -/
theorem C10_add_credits_unvalidated (u : User) (c : Int) :
    (add_credits u c).1.ai_credits = u.ai_credits + c ∧
    (add_credits u c).2 = u.ai_credits + c ∧
    (add_credits u c).1.subscription_tokens_used = u.subscription_tokens_used ∧
    (add_credits u c).1.has_used_free_limits = u.has_used_free_limits ∧
    (c < -u.ai_credits → (add_credits u c).1.ai_credits < 0) := by
  refine ⟨rfl, rfl, rfl, rfl, fun h => ?_⟩
  show u.ai_credits + c < 0
  omega

/-- Witness for C10: adding `-100` to a user holding 10 bonus credits drives
the balance negative while leaving the token counter alone. -/
theorem C10_add_credits_unvalidated_witness :
    (add_credits userFree10 (-100)).1.ai_credits < 0 ∧
    (add_credits userFree10 (-100)).1.subscription_tokens_used =
      userFree10.subscription_tokens_used :=
  ⟨(C10_add_credits_unvalidated userFree10 (-100)).2.2.2.2 (by decide),
   (C10_add_credits_unvalidated userFree10 (-100)).2.2.1⟩

/-- Claim C1: with `bonus ≥ 0`, `tokens_used ≥ 0`, effective limit `≥ 0` and
`c ≥ 1`, when `bonus + max(0, limit - used) ≥ c` the deduction succeeds,
takes `min(bonus, c)` from the bonus pool first and adds the remainder to
`subscription_tokens_used`. -/
theorem C1_deduction_order (u : User) (c tu : Int)
    (htu : u.subscription_tokens_used = some tu)
    (hb : 0 ≤ u.ai_credits) (htu0 : 0 ≤ tu)
    (hL : 0 ≤ (get_subscription_limits u).ai_credits_limit)
    (hc : 1 ≤ c)
    (henough : c ≤ u.ai_credits +
      max 0 ((get_subscription_limits u).ai_credits_limit - tu)) :
    check_and_deduct_credits u c =
      .ok { u with ai_credits := u.ai_credits - min u.ai_credits c,
                   subscription_tokens_used := some (tu + (c - min u.ai_credits c)) } := by
  rw [check_and_deduct_credits_eq, htu]
  simp only [Option.getD_some]
  rw [if_neg (by omega)]
  by_cases h2 : 0 < u.ai_credits
  · rw [if_pos h2]
    by_cases h3 : 0 < c - min u.ai_credits c
    · rw [if_pos h3]
    · rw [if_neg h3]
      have h0 : c - min u.ai_credits c = 0 := by omega
      rw [h0, add_zero, ← htu]
  · rw [if_neg h2, if_pos (show (0 : Int) < c by omega)]
    have hmin : min u.ai_credits c = 0 := by omega
    rw [hmin, sub_zero, sub_zero]

/-- Witness for C1, the spec's P2 example: from 3 bonus credits and 5
subscription credits remaining, deducting 5 empties the bonus pool and adds
2 to `subscription_tokens_used`. -/
theorem C1_deduction_order_witness :
    check_and_deduct_credits userP2 5 =
      .ok { ai_credits := 0, subscription_tokens_used := some 2,
            has_used_free_limits := false, subscriptions := [sub5],
            resume_created_ats := [], cover_letter_created_ats := [] } :=
  C1_deduction_order userP2 5 0 rfl (by decide) (by decide) (by decide)
    (by decide) (by decide)

/-- The free-limit marking side effect never touches the token counter. -/
lemma check_and_mark_free_limits_used_tokens (u : User) :
    (check_and_mark_free_limits_used u).subscription_tokens_used =
      u.subscription_tokens_used := by
  simp only [check_and_mark_free_limits_used]
  split
  · rfl
  · split
    · rfl
    · split <;> rfl

/-- The on-subscribe marking step never touches the token counter. -/
lemma mark_free_limits_tokens (u : User) :
    (mark_free_limits_as_used_on_subscription u).subscription_tokens_used =
      u.subscription_tokens_used := by
  simp only [mark_free_limits_as_used_on_subscription]
  split <;> rfl

/-- Claim C2: for every user state and `c ≥ 1`, `check_and_deduct_credits`
raises the insufficient-credits error iff
`bonus + max(0, limit - used) < c`; the error carries the required amount
and both pool balances, and the state at the raise is the unmodified input
state (no partial deduction). -/
theorem C2_insufficient_iff (u : User) (c : Int) (hc : 1 ≤ c) :
    ((∃ e u'', check_and_deduct_credits u c = .error (e, u'')) ↔
      u.ai_credits + max 0 ((get_subscription_limits u).ai_credits_limit -
        u.subscription_tokens_used.getD 0) < c) ∧
    (∀ e u'', check_and_deduct_credits u c = .error (e, u'') →
      e.credits_required = c ∧
      e.bonus_credits = u.ai_credits ∧
      e.subscription_remaining =
        max 0 ((get_subscription_limits u).ai_credits_limit -
          u.subscription_tokens_used.getD 0) ∧
      e.total_available = u.ai_credits + e.subscription_remaining ∧
      u'' = u) := by
  rw [check_and_deduct_credits_eq]
  by_cases h1 : u.ai_credits + max 0 ((get_subscription_limits u).ai_credits_limit -
      u.subscription_tokens_used.getD 0) < c
  · rw [if_pos h1]
    refine ⟨⟨fun _ => h1, fun _ => ⟨_, _, rfl⟩⟩, fun e u'' he => ?_⟩
    rw [Except.error.injEq, Prod.mk.injEq] at he
    obtain ⟨he1, he2⟩ := he
    subst he1
    subst he2
    exact ⟨rfl, rfl, rfl, rfl, rfl⟩
  · rw [if_neg h1]
    refine ⟨⟨?_, fun hlt => absurd hlt h1⟩, fun e u'' he => ?_⟩
    · rintro ⟨e, u'', he⟩
      exfalso
      split at he <;> split at he <;> exact Except.noConfusion he
    · exfalso
      split at he <;> split at he <;> exact Except.noConfusion he

/-- Witness for C2, the spec's Scenario B: `bonus=0, limit=100, used=100`
and a requirement of 1 fail with shortfall `{required 1, bonus 0,
subscription_remaining 0}`, leaving the state untouched. -/
theorem C2_insufficient_iff_witness :
    (∃ e u'', check_and_deduct_credits userScB 1 = .error (e, u'')) ∧
    (∀ e u'', check_and_deduct_credits userScB 1 = .error (e, u'') →
      e.credits_required = 1 ∧ e.bonus_credits = 0 ∧
      e.subscription_remaining = 0 ∧ u'' = userScB) := by
  have h := C2_insufficient_iff userScB 1 (by decide)
  refine ⟨h.1.mpr (by decide), fun e u'' he => ?_⟩
  obtain ⟨h1, h2, h3, _, h5⟩ := h.2 e u'' he
  exact ⟨h1, h2, h3, h5⟩

/-- Counterexample to claim C4 as stated: cancelling a subscription is an
operation other than `handle_subscription_renewal_or_upgrade` that sets
`subscription_tokens_used` to 0 (here from 5). -/
theorem C4_counterexample_cancel_resets :
    userTok5.subscription_tokens_used = some 5 ∧
    (cancel_subscription userTok5).map (fun u => u.subscription_tokens_used) =
      some (some 0) ∧
    some (5 : Int) ≠ some (0 : Int) :=
  ⟨rfl, rfl, by decide⟩

/-- Claim C4 as amended: `subscription_tokens_used` is reset to 0 by
`handle_subscription_renewal_or_upgrade` (new, renewed or upgraded
subscription) and also by the cancel endpoint; among the embedded
operations no other one resets or decrements it — a successful deduction of
a non-negative requirement never decreases it, and `add_credits` and the
free-limit marking steps leave it unchanged. -/
theorem C4_amended_reset_points :
    (∀ (now : Int) (u : User) (s : Subscription),
      ((handle_subscription_renewal_or_upgrade now u s).1).subscription_tokens_used =
        some 0) ∧
    (∀ (u u' : User), cancel_subscription u = some u' →
      u'.subscription_tokens_used = some 0) ∧
    (∀ (u : User) (c : Int) (u' : User), 0 ≤ c →
      check_and_deduct_credits u c = .ok u' →
      u.subscription_tokens_used.getD 0 ≤ u'.subscription_tokens_used.getD 0) ∧
    (∀ (u : User) (c : Int),
      ((add_credits u c).1).subscription_tokens_used = u.subscription_tokens_used) ∧
    (∀ u : User, (check_and_mark_free_limits_used u).subscription_tokens_used =
      u.subscription_tokens_used) ∧
    (∀ u : User, (mark_free_limits_as_used_on_subscription u).subscription_tokens_used =
      u.subscription_tokens_used) := by
  refine ⟨fun now u s => ?_, fun u u' h => ?_, fun u c u' hc h => ?_,
    fun u c => rfl, fun u => check_and_mark_free_limits_used_tokens u,
    fun u => mark_free_limits_tokens u⟩
  · show (mark_free_limits_as_used_on_subscription
      (reset_subscription_credits u)).subscription_tokens_used = some 0
    rw [mark_free_limits_tokens]
    rfl
  · simp only [cancel_subscription] at h
    split at h
    · exact Option.noConfusion h
    · split at h
      · injection h with h
        subst h
        rfl
      · injection h with h
        subst h
        rfl
  · rw [check_and_deduct_credits_eq] at h
    by_cases h1 : u.ai_credits + max 0 ((get_subscription_limits u).ai_credits_limit -
        u.subscription_tokens_used.getD 0) < c
    · rw [if_pos h1] at h
      exact Except.noConfusion h
    · rw [if_neg h1] at h
      by_cases h2 : 0 < u.ai_credits
      · rw [if_pos h2] at h
        by_cases h3 : 0 < c - min u.ai_credits c
        · rw [if_pos h3] at h
          injection h with h
          subst h
          show u.subscription_tokens_used.getD 0 ≤
            (some (u.subscription_tokens_used.getD 0 + (c - min u.ai_credits c))).getD 0
          simp only [Option.getD_some]
          omega
        · rw [if_neg h3] at h
          injection h with h
          subst h
          exact le_refl _
      · rw [if_neg h2] at h
        by_cases h4 : 0 < c
        · rw [if_pos h4] at h
          injection h with h
          subst h
          show u.subscription_tokens_used.getD 0 ≤
            (some (u.subscription_tokens_used.getD 0 + c)).getD 0
          simp only [Option.getD_some]
          omega
        · rw [if_neg h4] at h
          injection h with h
          subst h
          exact le_refl _

/-- Witness for C4 as amended: renewal on `userTok5` resets the counter,
the cancel endpoint's result on `userTok5` has a zero counter, and the P2
deduction does not decrease the counter. -/
theorem C4_amended_reset_points_witness :
    ((handle_subscription_renewal_or_upgrade 0 userTok5 sub5).1).subscription_tokens_used =
      some 0 ∧
    userTok5Cancelled.subscription_tokens_used = some 0 ∧
    userP2.subscription_tokens_used.getD 0 ≤ userP2After.subscription_tokens_used.getD 0 :=
  ⟨C4_amended_reset_points.1 0 userTok5 sub5,
   C4_amended_reset_points.2.1 userTok5 userTok5Cancelled rfl,
   C4_amended_reset_points.2.2.1 userP2 5 userP2After (by decide) rfl⟩

/-- The free-limit marking side effect never touches the subscription rows. -/
lemma check_and_mark_free_limits_used_subs (u : User) :
    (check_and_mark_free_limits_used u).subscriptions = u.subscriptions := by
  simp only [check_and_mark_free_limits_used]
  split
  · rfl
  · split
    · rfl
    · split <;> rfl

/-- The marking side effect never touches the bonus-credit balance. -/
lemma check_and_mark_free_limits_used_credits (u : User) :
    (check_and_mark_free_limits_used u).ai_credits = u.ai_credits := by
  simp only [check_and_mark_free_limits_used]
  split
  · rfl
  · split
    · rfl
    · split <;> rfl

/-- The active-subscription choice only reads the subscription rows. -/
lemma get_user_subscription_congr (u v : User)
    (h : u.subscriptions = v.subscriptions) :
    get_user_subscription u = get_user_subscription v := by
  simp only [get_user_subscription, h]

/-- Claim C7: `get_current_usage` counts resources created at or after the
active subscription's `current_period_start` when one is set, and all-time
counts otherwise (no active subscription, or no period start). -/
theorem C7_usage_period_scoping (u : User) :
    (∀ (s : Subscription) (t : Int), get_user_subscription u = some s →
      s.current_period_start = some t →
      get_current_usage u =
        { resume_count := u.resume_created_ats.countP (fun c => decide (t ≤ c)),
          cover_letter_count :=
            u.cover_letter_created_ats.countP (fun c => decide (t ≤ c)) }) ∧
    (∀ s : Subscription, get_user_subscription u = some s →
      s.current_period_start = none → get_current_usage u = get_total_usage u) ∧
    (get_user_subscription u = none → get_current_usage u = get_total_usage u) := by
  refine ⟨fun s t hs ht => ?_, fun s hs ht => ?_, fun hs => ?_⟩
  · simp only [get_current_usage, hs, ht]
    rw [List.countP_eq_length_filter, List.countP_eq_length_filter]
  · simp only [get_current_usage, hs, ht, get_total_usage]
  · simp only [get_current_usage, hs, get_total_usage]

/-- Witness for C7, the spec's Scenario D: period starts at 10, five resumes
created before and two after, so the usage counter reports 2. -/
theorem C7_usage_period_scoping_witness :
    get_current_usage userScD = { resume_count := 2, cover_letter_count := 0 } := by
  have h := (C7_usage_period_scoping userScD).1
    { sub5 with current_period_start := some 10 } 10 rfl rfl
  rw [h]
  decide

/-- Claim C8: for a user with no active subscription who has created at
least one resource, the limit gate's marking step sets
`has_used_free_limits`, after which both effective resource limits resolve
to 0; the gate (`validate_resume_creation`) performs this mutation itself,
so it is not read-only. -/
theorem C8_free_tier_one_shot (u u1 : User)
    (hns : get_user_subscription u = none)
    (hused : 0 < (get_total_usage u).resume_count ∨
      0 < (get_total_usage u).cover_letter_count)
    (hu1 : u1 = check_and_mark_free_limits_used u) :
    u1.has_used_free_limits = true ∧
    (validate_resume_creation u = .ok u1 ∨
      ∃ e, validate_resume_creation u = .error (e, u1)) ∧
    (get_subscription_limits u1).resume_limit = some 0 ∧
    (get_subscription_limits u1).cover_letter_limit = some 0 ∧
    (u.has_used_free_limits = false → u1 ≠ u) := by
  subst hu1
  have hflag : (check_and_mark_free_limits_used u).has_used_free_limits = true := by
    simp only [check_and_mark_free_limits_used, hns]
    by_cases hf : u.has_used_free_limits = true
    · simp [hf]
    · simp [hf, hused]
  have hns1 : get_user_subscription (check_and_mark_free_limits_used u) = none :=
    (get_user_subscription_congr _ u (check_and_mark_free_limits_used_subs u)).trans hns
  have hl : get_subscription_limits (check_and_mark_free_limits_used u) =
      { resume_limit := some 0, cover_letter_limit := some 0, ai_credits_limit := 0 } := by
    simp [get_subscription_limits, hns1, hflag]
  refine ⟨hflag, ?_, by rw [hl], by rw [hl], fun hf0 heq => ?_⟩
  · by_cases hg : check_resume_limit (check_and_mark_free_limits_used u) = true
    · left
      simp only [validate_resume_creation]
      rw [if_pos hg]
    · right
      exact ⟨_, by simp only [validate_resume_creation]; rw [if_neg hg]⟩
  · rw [heq, hf0] at hflag
    exact Bool.noConfusion hflag

/-- Witness for C8, the spec's P4: a never-subscribed user with one resume
gets `has_used_free_limits = true` from the marking step, and both
effective limits then resolve to 0. -/
theorem C8_free_tier_one_shot_witness :
    (check_and_mark_free_limits_used userFreeUsed).has_used_free_limits = true ∧
    (get_subscription_limits (check_and_mark_free_limits_used userFreeUsed)).resume_limit =
      some 0 ∧
    (get_subscription_limits
      (check_and_mark_free_limits_used userFreeUsed)).cover_letter_limit = some 0 := by
  have h := C8_free_tier_one_shot userFreeUsed _ rfl (Or.inl (by decide)) rfl
  exact ⟨h.1, h.2.2.1, h.2.2.2.1⟩

/-- The key order is irreflexive. -/
lemma key_lt_irrefl (a : Int × Int) : ¬ key_lt a a := by
  unfold key_lt
  omega

/-- The key order is transitive. -/
lemma key_lt_trans {a b c : Int × Int} (h1 : key_lt a b) (h2 : key_lt b c) :
    key_lt a c := by
  unfold key_lt at *
  omega

/-- Its complement ("key of the right argument is no larger") is
transitive as well, as for any strict total lexicographic order. -/
lemma key_not_lt_trans {a b c : Int × Int} (h1 : ¬ key_lt a b) (h2 : ¬ key_lt b c) :
    ¬ key_lt a c := by
  unfold key_lt at *
  omega

/-- The Python `max` scan returns the initial element or a list element, and
its key is maximal among the initial element's and all list elements'. -/
lemma foldl_pick_step_spec (l : List Subscription) (init : Subscription) :
    (l.foldl pick_step init = init ∨ l.foldl pick_step init ∈ l) ∧
    ¬ key_lt (subscription_key (l.foldl pick_step init)) (subscription_key init) ∧
    ∀ t ∈ l, ¬ key_lt (subscription_key (l.foldl pick_step init))
      (subscription_key t) := by
  induction l generalizing init with
  | nil =>
      exact ⟨Or.inl rfl, key_lt_irrefl _, fun t ht => absurd ht (List.not_mem_nil t)⟩
  | cons x xs ih =>
      simp only [List.foldl_cons]
      obtain ⟨hmem, hinit, hall⟩ := ih (pick_step init x)
      by_cases hx : key_lt (subscription_key init) (subscription_key x)
      · have hps : pick_step init x = x := by
          simp only [pick_step]
          rw [if_pos hx]
        rw [hps] at hmem hinit hall ⊢
        refine ⟨?_, fun hcon => hinit (key_lt_trans hcon hx), fun t ht => ?_⟩
        · rcases hmem with h | h
          · right
            rw [h]
            exact List.mem_cons_self x xs
          · exact Or.inr (List.mem_cons_of_mem x h)
        · rcases List.mem_cons.mp ht with rfl | ht'
          · exact hinit
          · exact hall t ht'
      · have hps : pick_step init x = init := by
          simp only [pick_step]
          rw [if_neg hx]
        rw [hps] at hmem hinit hall ⊢
        refine ⟨?_, hinit, fun t ht => ?_⟩
        · rcases hmem with h | h
          · exact Or.inl h
          · exact Or.inr (List.mem_cons_of_mem x h)
        · rcases List.mem_cons.mp ht with rfl | ht'
          · exact key_not_lt_trans hinit hx
          · exact hall t ht'

/-- A subscription picked by the `max` scan belongs to the list and has a
lexicographically maximal key. -/
lemma pick_max_by_key_spec (l : List Subscription) (s : Subscription)
    (h : pick_max_by_key l = some s) :
    s ∈ l ∧ ∀ t ∈ l, ¬ key_lt (subscription_key s) (subscription_key t) := by
  cases l with
  | nil => exact Option.noConfusion h
  | cons x xs =>
      simp only [pick_max_by_key, Option.some.injEq] at h
      subst h
      obtain ⟨hmem, hinit, hall⟩ := foldl_pick_step_spec xs x
      refine ⟨?_, fun t ht => ?_⟩
      · rcases hmem with h | h
        · rw [h]
          exact List.mem_cons_self x xs
        · exact List.mem_cons_of_mem x h
      · rcases List.mem_cons.mp ht with rfl | ht'
        · exact hinit
        · exact hall t ht'

/-- Claim C5: `get_subscription_limits` returns the active subscription's
limits verbatim with `-1` mapped to unlimited; all-zero limits when there is
no active subscription and the free tier was consumed; the 20/20/0 free-tier
defaults otherwise; and when several active rows exist the one with the
highest `ai_credits_limit`, ties broken by most recent creation, is used. -/
theorem C5_effective_limits (u : User) :
    (get_user_subscription u = none → u.has_used_free_limits = true →
      get_subscription_limits u =
        { resume_limit := some 0, cover_letter_limit := some 0,
          ai_credits_limit := 0 }) ∧
    (get_user_subscription u = none → u.has_used_free_limits = false →
      get_subscription_limits u =
        { resume_limit := some 20, cover_letter_limit := some 20,
          ai_credits_limit := 0 }) ∧
    (∀ s : Subscription, get_user_subscription u = some s →
      get_subscription_limits u =
        { resume_limit := if s.resume_limit = -1 then none else some s.resume_limit,
          cover_letter_limit :=
            if s.cover_letter_limit = -1 then none else some s.cover_letter_limit,
          ai_credits_limit := s.ai_credits_limit }) ∧
    (∀ t : Subscription, t ∈ u.subscriptions → t.is_active = true →
      ∃ s, get_user_subscription u = some s) ∧
    (∀ s : Subscription, get_user_subscription u = some s →
      s.is_active = true ∧ s ∈ u.subscriptions ∧
      ∀ t ∈ u.subscriptions, t.is_active = true →
        t.ai_credits_limit < s.ai_credits_limit ∨
          (t.ai_credits_limit = s.ai_credits_limit ∧
            t.created_at ≤ s.created_at)) := by
  refine ⟨fun hn hf => ?_, fun hn hf => ?_, fun s hs => ?_, fun t ht hact => ?_,
    fun s hs => ?_⟩
  · simp [get_subscription_limits, hn, hf]
  · simp [get_subscription_limits, hn, hf]
  · simp only [get_subscription_limits, hs]
  · simp only [get_user_subscription]
    cases hfil : u.subscriptions.filter (fun s => s.is_active) with
    | nil =>
        exfalso
        have hmem : t ∈ u.subscriptions.filter (fun s => s.is_active) :=
          List.mem_filter.mpr ⟨ht, hact⟩
        rw [hfil] at hmem
        exact List.not_mem_nil t hmem
    | cons a as => exact ⟨_, rfl⟩
  · simp only [get_user_subscription] at hs
    obtain ⟨hmem, hmax⟩ := pick_max_by_key_spec _ s hs
    obtain ⟨hmem', hact'⟩ := List.mem_filter.mp hmem
    refine ⟨hact', hmem', fun t ht hact => ?_⟩
    have hk := hmax t (List.mem_filter.mpr ⟨ht, hact⟩)
    simp only [key_lt, subscription_key] at hk
    omega

/-- Witness for C5: with two active rows the 7-credit row beats the
1-credit row and its limits are returned with `-1` untouched by the
concrete values, and an active row guarantees a selected subscription. -/
theorem C5_effective_limits_witness :
    get_subscription_limits userTwoSubs =
      { resume_limit := some 3, cover_letter_limit := some 4,
        ai_credits_limit := 7 } ∧
    (∃ s, get_user_subscription userTwoSubs = some s) := by
  constructor
  · have h := (C5_effective_limits userTwoSubs).2.2.1 subHigh rfl
    rw [h]
    decide
  · exact (C5_effective_limits userTwoSubs).2.2.2.1 subLow (by decide) (by decide)

/-- `check_resume_limit`, with its let-bindings expanded. -/
lemma check_resume_limit_eq (u : User) :
    check_resume_limit u =
      (match (get_subscription_limits u).resume_limit with
       | none => true
       | some m =>
           if ((get_current_usage u).resume_count : Int) < m then true
           else if 0 < u.ai_credits then true
           else decide (0 <
             (if 0 < (get_subscription_limits u).ai_credits_limit then
                max 0 ((get_subscription_limits u).ai_credits_limit -
                  u.subscription_tokens_used.getD 0)
              else 0))) := rfl

/-- `check_cover_letter_limit`, with its let-bindings expanded. -/
lemma check_cover_letter_limit_eq (u : User) :
    check_cover_letter_limit u =
      (match (get_subscription_limits u).cover_letter_limit with
       | none => true
       | some m =>
           if ((get_current_usage u).cover_letter_count : Int) < m then true
           else if 0 < u.ai_credits then true
           else decide (0 <
             (if 0 < (get_subscription_limits u).ai_credits_limit then
                max 0 ((get_subscription_limits u).ai_credits_limit -
                  u.subscription_tokens_used.getD 0)
              else 0))) := rfl

/-- The if-cascade shared by both resource checks in the bounded case
agrees with the spec-worded allow condition, for non-negative token
counters. -/
lemma gate_allow_iff_some (m : Int) (count : Nat) (bonus L tu : Int)
    (htu : 0 ≤ tu) :
    ((if (count : Int) < m then true
      else if 0 < bonus then true
      else decide (0 < (if 0 < L then max 0 (L - tu) else 0))) = true) ↔
      spec_gate_allows (some m) count bonus L tu := by
  by_cases hcount : (count : Int) < m
  · rw [if_pos hcount]
    exact ⟨fun _ => Or.inr (Or.inl ⟨m, rfl, hcount⟩), fun _ => rfl⟩
  · rw [if_neg hcount]
    by_cases hbonus : 0 < bonus
    · rw [if_pos hbonus]
      exact ⟨fun _ => Or.inr (Or.inr (Or.inl hbonus)), fun _ => rfl⟩
    · rw [if_neg hbonus, decide_eq_true_eq]
      constructor
      · intro h
        refine Or.inr (Or.inr (Or.inr ?_))
        split at h <;> omega
      · rintro (h | ⟨m', hm, hlt⟩ | h | h)
        · exact Option.noConfusion h
        · exfalso
          rw [Option.some.injEq] at hm
          omega
        · exact absurd h hbonus
        · split <;> omega

/-- `validate_resume_creation`, with its let-bindings expanded. -/
lemma validate_resume_creation_eq (u u1 : User)
    (h : u1 = check_and_mark_free_limits_used u) :
    validate_resume_creation u =
      (if check_resume_limit u1 then .ok u1
       else
         .error ({ limit := (get_subscription_limits u1).resume_limit,
                   current_count := (get_current_usage u1).resume_count,
                   bonus_credits := u1.ai_credits,
                   subscription_remaining :=
                     if 0 < (get_subscription_limits u1).ai_credits_limit then
                       max 0 ((get_subscription_limits u1).ai_credits_limit -
                         u1.subscription_tokens_used.getD 0)
                     else 0 }, u1)) := by
  subst h
  rfl

/-- `validate_cover_letter_creation`, with its let-bindings expanded. -/
lemma validate_cover_letter_creation_eq (u u1 : User)
    (h : u1 = check_and_mark_free_limits_used u) :
    validate_cover_letter_creation u =
      (if check_cover_letter_limit u1 then .ok u1
       else
         .error ({ limit := (get_subscription_limits u1).cover_letter_limit,
                   current_count := (get_current_usage u1).cover_letter_count,
                   bonus_credits := u1.ai_credits,
                   subscription_remaining :=
                     if 0 < (get_subscription_limits u1).ai_credits_limit then
                       max 0 ((get_subscription_limits u1).ai_credits_limit -
                         u1.subscription_tokens_used.getD 0)
                     else 0 }, u1)) := by
  subst h
  rfl

/-- Claim C6: after the marking step, the creation gate allows exactly when
the effective limit is unlimited, or the period-scoped count is below it,
or bonus credits remain, or subscription tokens remain; on denial the
raised error reports the limit, the count, and both pools' remaining
balances — symmetrically for resumes and cover letters. -/
theorem C6_limit_gate_escape_valve (u u1 : User)
    (hu1 : u1 = check_and_mark_free_limits_used u)
    (htu : 0 ≤ u1.subscription_tokens_used.getD 0) :
    (check_resume_limit u1 = true ↔
      spec_gate_allows (get_subscription_limits u1).resume_limit
        (get_current_usage u1).resume_count u1.ai_credits
        (get_subscription_limits u1).ai_credits_limit
        (u1.subscription_tokens_used.getD 0)) ∧
    (check_cover_letter_limit u1 = true ↔
      spec_gate_allows (get_subscription_limits u1).cover_letter_limit
        (get_current_usage u1).cover_letter_count u1.ai_credits
        (get_subscription_limits u1).ai_credits_limit
        (u1.subscription_tokens_used.getD 0)) ∧
    (validate_resume_creation u = .ok u1 ↔ check_resume_limit u1 = true) ∧
    (validate_cover_letter_creation u = .ok u1 ↔
      check_cover_letter_limit u1 = true) ∧
    (check_resume_limit u1 = false →
      validate_resume_creation u =
        .error ({ limit := (get_subscription_limits u1).resume_limit,
                  current_count := (get_current_usage u1).resume_count,
                  bonus_credits := u1.ai_credits,
                  subscription_remaining :=
                    max 0 ((get_subscription_limits u1).ai_credits_limit -
                      u1.subscription_tokens_used.getD 0) }, u1)) ∧
    (check_cover_letter_limit u1 = false →
      validate_cover_letter_creation u =
        .error ({ limit := (get_subscription_limits u1).cover_letter_limit,
                  current_count := (get_current_usage u1).cover_letter_count,
                  bonus_credits := u1.ai_credits,
                  subscription_remaining :=
                    max 0 ((get_subscription_limits u1).ai_credits_limit -
                      u1.subscription_tokens_used.getD 0) }, u1)) := by
  have hrem : (if 0 < (get_subscription_limits u1).ai_credits_limit then
      max 0 ((get_subscription_limits u1).ai_credits_limit -
        u1.subscription_tokens_used.getD 0)
    else 0) =
      max 0 ((get_subscription_limits u1).ai_credits_limit -
        u1.subscription_tokens_used.getD 0) := by
    split <;> omega
  refine ⟨?_, ?_, ?_, ?_, fun hg => ?_, fun hg => ?_⟩
  · rw [check_resume_limit_eq]
    cases hl : (get_subscription_limits u1).resume_limit with
    | none => simp [spec_gate_allows]
    | some m => exact gate_allow_iff_some m _ _ _ _ htu
  · rw [check_cover_letter_limit_eq]
    cases hl : (get_subscription_limits u1).cover_letter_limit with
    | none => simp [spec_gate_allows]
    | some m => exact gate_allow_iff_some m _ _ _ _ htu
  · rw [validate_resume_creation_eq u u1 hu1]
    by_cases hg : check_resume_limit u1 = true
    · simp [hg]
    · rw [if_neg (by simp [hg])]
      exact ⟨fun h => Except.noConfusion h, fun h => absurd h (by simp [hg])⟩
  · rw [validate_cover_letter_creation_eq u u1 hu1]
    by_cases hg : check_cover_letter_limit u1 = true
    · simp [hg]
    · rw [if_neg (by simp [hg])]
      exact ⟨fun h => Except.noConfusion h, fun h => absurd h (by simp [hg])⟩
  · rw [validate_resume_creation_eq u u1 hu1, if_neg (by simp [hg]), hrem]
  · rw [validate_cover_letter_creation_eq u u1 hu1, if_neg (by simp [hg]), hrem]

/-- Witness for C6, the spec's P5: a user at both resource caps with one
bonus credit and no subscription tokens passes both gates; with the bonus
credit spent, the resume gate denies with the exact breakdown. -/
theorem C6_limit_gate_escape_valve_witness :
    (check_resume_limit (check_and_mark_free_limits_used userAtCap) = true ∧
      check_cover_letter_limit (check_and_mark_free_limits_used userAtCap) = true) ∧
    validate_resume_creation userAtCapNoBonus =
      .error ({ limit := some 1, current_count := 1, bonus_credits := 0,
                subscription_remaining := 0 },
        check_and_mark_free_limits_used userAtCapNoBonus) := by
  have h := C6_limit_gate_escape_valve userAtCap _ rfl (by decide)
  have h0 := C6_limit_gate_escape_valve userAtCapNoBonus _ rfl (by decide)
  refine ⟨⟨?_, ?_⟩, ?_⟩
  · exact h.1.mpr (Or.inr (Or.inr (Or.inl (by decide))))
  · exact h.2.1.mpr (Or.inr (Or.inr (Or.inl (by decide))))
  · exact h0.2.2.2.2.1 (by decide)

end Dropshapes
